import Mathlib

/-!
Shallow embedding of the FZ-Manager core (`src/fz_manager/factorio_zone_api.py`):
the websocket receive loop of `FZClient.connect` (message sequencer and event
dispatcher over the client's mutable session state) and the REST resource
operations that manipulate the `mods_sync` / `saves_sync` flags.

The embedding is pure: an inbound websocket frame is a decoded JSON object,
modelled as a tagged event plus an optional sequence number `num`; the receive
loop body becomes a state-transition function, and each REST operation becomes
a function of its local inputs and the HTTP response it receives.
-/

namespace FZ

/-- Mirrors the `ServerStatus` class (string constants in the source). -/
inductive ServerStatus where
  | OFFLINE
  | STARTING
  | STOPPING
  | RUNNING
deriving DecidableEq, Repr

/-- The tagged payload of a decoded inbound JSON frame, one constructor per
`data['type']` handled by the receive loop.  Fields read with `data.get(...)`
in the source (and hence possibly absent) are `Option`s; fields read with
`data[...]` are mandatory.  `options` events carry a name (`'regions'`,
`'versions'` or `'saves'`) and an opaque payload that the source stores
wholesale, modelled as an association list. -/
inductive Event where
  | visit (secret : String)
  | options (name : String) (opts : List (String × String))
  | mods (mods : List String)
  | idle
  | starting (launchId : Option String)
  | stopping (launchId : Option String)
  | running (launchId : Option String) (socket : Option String)
  | slot (slotId : String)
  | log (line : String)
  | info (line : String)
  | warn
  | error
deriving DecidableEq, Repr

/-- A decoded inbound frame: `data.get('num')` plus the tagged payload.
The `slot` branch of the dispatcher stores the whole decoded frame. -/
structure Frame where
  num : Option Int
  event : Event
deriving DecidableEq, Repr

/-- The mutable session state of `FZClient` (its `__init__` fields).  The
`socket` handle and the two listener lists are omitted: the socket is the
transport itself, and the listeners are notification-only callbacks that the
receive loop never reads state from. -/
structure ClientState where
  user_token : Option String
  visit_secret : Option String
  regions : List (String × String)
  versions : List (String × String)
  slots : List (String × Frame)
  saves : List (String × String)
  mods : List String
  running : Bool
  launch_id : Option String
  region : Option String
  server_address : Option String
  server_status : ServerStatus
  mods_sync : Bool
  saves_sync : Bool
  last_handled_message_num : Int
deriving DecidableEq, Repr

/-- `FZClient.__init__(token)`. -/
def initClient (token : Option String) : ClientState :=
  { user_token := token
    visit_secret := none
    regions := []
    versions := []
    slots := []
    saves := []
    mods := []
    running := false
    launch_id := none
    region := none
    server_address := none
    server_status := ServerStatus.OFFLINE
    mods_sync := false
    saves_sync := false
    last_handled_message_num := -1 }

/-- A fresh client constructed with no stored token. -/
def initState : ClientState := initClient none

/-- Python dict update `d[k] = v`: replace the value at an existing key in
place, otherwise append the new binding. -/
def setAssoc {α : Type} : List (String × α) → String → α → List (String × α)
  | [], k, v => [(k, v)]
  | (k', v') :: t, k, v =>
      if k' = k then (k, v) :: t else (k', v') :: setAssoc t k v

/-- The message-sequencer block of the receive loop:
`current_num = data.get('num'); if current_num: ...`.
Returns `none` when the frame is dropped (`continue`), otherwise the state to
dispatch with.  Python truthiness makes both a missing `num` and `num == 0`
skip the whole block. -/
def seqCheck (s : ClientState) : Option Int → Option ClientState
  | none => some s
  | some n =>
      if n = 0 then some s
      else if n ≤ s.last_handled_message_num then none
      else some { s with last_handled_message_num := n }

/-- Matching of one or more ASCII decimal digits (greedy, as in the regex
`\d+` of the source; the Unicode digits Python would also admit are outside
this model).  Returns the digits consumed and the rest. -/
def takeDigits : List Char → List Char × List Char
  | [] => ([], [])
  | c :: cs =>
      if c.isDigit then
        let p := takeDigits cs
        (c :: p.1, p.2)
      else ([], c :: cs)

/-- Matches `\d+`: at least one digit. -/
def matchNum (cs : List Char) : Option (List Char × List Char) :=
  let p := takeDigits cs
  if p.1.isEmpty then none else some p

/-- Matches one expected literal character. -/
def expectChar (c : Char) : List Char → Option (List Char)
  | x :: xs => if x = c then some xs else none
  | [] => none

/-- Matches a fixed literal character sequence. -/
def matchLit : List Char → List Char → Option (List Char)
  | [], cs => some cs
  | l :: ls, c :: cs => if c = l then matchLit ls cs else none
  | _ :: _, [] => none

/-- Matches the capture group `(\d+\.\d+\.\d+\.\d+:\d+)` of the `info`-line
regex and returns the captured text. -/
def matchIpPort (cs : List Char) : Option (String × List Char) := do
  let p1 ← matchNum cs
  let r1 ← expectChar '.' p1.2
  let p2 ← matchNum r1
  let r2 ← expectChar '.' p2.2
  let p3 ← matchNum r2
  let r3 ← expectChar '.' p3.2
  let p4 ← matchNum r3
  let r4 ← expectChar ':' p4.2
  let p5 ← matchNum r4
  pure (String.mk (p1.1 ++ '.' :: p2.1 ++ '.' :: p3.1 ++ '.' :: p4.1 ++ ':' :: p5.1), p5.2)

/-- The literal part of the `info`-line regex. -/
def connLit : List Char := "selecting connection ".toList

/-- Leftmost match of the full pattern, scanning start positions left to
right as `re.findall` does; the source keeps `match[0]`, the first capture. -/
def findConn : List Char → Option String
  | [] => none
  | c :: cs =>
      match matchLit connLit (c :: cs) with
      | some rest =>
          match matchIpPort rest with
          | some p => some p.1
          | none => findConn cs
      | none => findConn cs

/-- `re.findall('selecting connection (\d+\.\d+\.\d+\.\d+:\d+)', line)`,
reduced to the first capture the source actually uses. -/
def extractConnection (line : String) : Option String :=
  findConn line.toList

/-- The `if data['type'] == ...` chain of the receive loop: the state mutation
applied to an accepted frame.  The `visit` branch additionally calls
`self.login()`, a synchronous REST round-trip that updates `user_token` from
the network on success; that network effect is outside this pure per-frame
state function.  The `log` branch and the trailing `on_new_message` call only
notify listeners and mutate no state. -/
def dispatch (s : ClientState) (data : Frame) : ClientState :=
  match data.event with
  | Event.visit secret => { s with visit_secret := some secret }
  | Event.options name opts =>
      if name = "regions" then { s with regions := opts }
      else if name = "versions" then { s with versions := opts }
      else if name = "saves" then { s with saves := opts, saves_sync := true }
      else s
  | Event.mods ms => { s with mods := ms, mods_sync := true }
  | Event.idle =>
      { s with running := false
               launch_id := none
               server_status := ServerStatus.OFFLINE
               last_handled_message_num := -1
               server_address := none }
  | Event.starting lid =>
      { s with running := true, launch_id := lid, server_status := ServerStatus.STARTING }
  | Event.stopping lid =>
      { s with running := true, launch_id := lid, server_status := ServerStatus.STOPPING }
  | Event.running lid sock =>
      { s with running := true
               launch_id := lid
               server_address := sock
               server_status := ServerStatus.RUNNING }
  | Event.slot slotId => { s with slots := setAssoc s.slots slotId data }
  | Event.log _ => s
  | Event.info line =>
      match extractConnection line with
      | some addr =>
          { s with server_address := some addr, server_status := ServerStatus.STARTING }
      | none => s
  | Event.warn => s
  | Event.error => s

/-- Whether the sequencer lets the frame through to the dispatcher. -/
def accepts (s : ClientState) (f : Frame) : Bool :=
  (seqCheck s f.num).isSome

/-- One iteration of the receive loop on a successfully decoded frame:
sequencer check, then dispatch; a dropped frame (`continue`) leaves the state
untouched. -/
def handleFrame (s : ClientState) (f : Frame) : ClientState :=
  match seqCheck s f.num with
  | none => s
  | some s1 => dispatch s1 f

/-- One iteration of the receive loop on a raw frame.  `none` stands for a
frame whose `json.loads` fails: the source has no handler around the loop
body, so the decode exception propagates out of `connect`, terminating the
receive loop — modelled as `Except.error`. -/
def recvStep (s : ClientState) (raw : Option Frame) : Except String ClientState :=
  match raw with
  | none => Except.error "json.JSONDecodeError"
  | some f => Except.ok (handleFrame s f)

/-- The receive loop run over a list of decoded frames. -/
def processFrames (s : ClientState) (fs : List Frame) : ClientState :=
  fs.foldl handleFrame s

/-- The per-frame acceptance decisions of a run of the receive loop. -/
def runAccepts (s : ClientState) : List Frame → List Bool
  | [] => []
  | f :: fs => accepts s f :: runAccepts (handleFrame s f) fs

/-- An HTTP response as the REST operations observe it. -/
structure HttpResponse where
  status : Nat
  text : String
deriving DecidableEq, Repr

/-- `requests.Response.ok`: true iff the status code is below 400. -/
def HttpResponse.ok (r : HttpResponse) : Bool :=
  r.status < 400

/-- The observable outcome of one REST resource operation:
whether the HTTP request was issued at all, the value the relevant sync flag
had at the moment the request went out (`none` when no request was made), the
flag's value when the operation finishes, and its result (`Except.error`
models the raised exception's message). -/
structure RestOp where
  requestIssued : Bool
  flagAtRequest : Option Bool
  flagAfter : Bool
  result : Except String Unit
deriving Repr

/-- `FZClient.toggle_mod`, as a function of the `mods_sync` flag before the
call and the HTTP response. -/
def toggle_mod (mods_sync : Bool) (resp : HttpResponse) : RestOp :=
  let mods_sync := false
  if !resp.ok then
    { requestIssued := true
      flagAtRequest := some mods_sync
      flagAfter := true
      result := Except.error ("Error in toggling mod: " ++ resp.text) }
  else
    { requestIssued := true
      flagAtRequest := some mods_sync
      flagAfter := mods_sync
      result := Except.ok () }

/-- `FZClient.delete_mod`. -/
def delete_mod (mods_sync : Bool) (resp : HttpResponse) : RestOp :=
  let mods_sync := false
  if !resp.ok then
    { requestIssued := true
      flagAtRequest := some mods_sync
      flagAfter := true
      result := Except.error ("Error in deleting mod: " ++ resp.text) }
  else
    { requestIssued := true
      flagAtRequest := some mods_sync
      flagAfter := mods_sync
      result := Except.ok () }

/-- `FZClient.upload_mod`: the size guard runs before `mods_sync` is cleared
and before the request goes out; opening the file is local I/O, not a REST
call. -/
def upload_mod (size : Int) (mods_sync : Bool) (resp : HttpResponse) : RestOp :=
  if size > 268435456 then
    { requestIssued := false
      flagAtRequest := none
      flagAfter := mods_sync
      result := Except.error "Mod file must be under 256MB" }
  else
    let mods_sync := false
    if !resp.ok then
      { requestIssued := true
        flagAtRequest := some mods_sync
        flagAfter := true
        result := Except.error ("Error uploading mod: " ++ resp.text) }
    else
      { requestIssued := true
        flagAtRequest := some mods_sync
        flagAfter := mods_sync
        result := Except.ok () }

/-- `FZClient.delete_save_slot` (this one tests `status_code != 200`). -/
def delete_save_slot (saves_sync : Bool) (resp : HttpResponse) : RestOp :=
  let saves_sync := false
  if resp.status ≠ 200 then
    { requestIssued := true
      flagAtRequest := some saves_sync
      flagAfter := true
      result := Except.error ("Error deleting save: " ++ resp.text) }
  else
    { requestIssued := true
      flagAtRequest := some saves_sync
      flagAfter := saves_sync
      result := Except.ok () }

/-- `FZClient.download_save_slot`: issues the request with `saves_sync`
untouched; on a non-200 status it sets `saves_sync = True` and raises, and on
200 it streams the body to the local file (local I/O, no flag change). -/
def download_save_slot (saves_sync : Bool) (resp : HttpResponse) : RestOp :=
  if resp.status ≠ 200 then
    { requestIssued := true
      flagAtRequest := some saves_sync
      flagAfter := true
      result := Except.error ("Error downloading save: " ++ resp.text) }
  else
    { requestIssued := true
      flagAtRequest := some saves_sync
      flagAfter := saves_sync
      result := Except.ok () }

/-- `FZClient.upload_save`: size guard before the flag is cleared and before
the request. -/
def upload_save (size : Int) (saves_sync : Bool) (resp : HttpResponse) : RestOp :=
  if size > 100663296 then
    { requestIssued := false
      flagAtRequest := none
      flagAfter := saves_sync
      result := Except.error "Save file must be under 96MB" }
  else
    let saves_sync := false
    if !resp.ok then
      { requestIssued := true
        flagAtRequest := some saves_sync
        flagAfter := true
        result := Except.error ("Error uploading save: " ++ resp.text) }
    else
      { requestIssued := true
        flagAtRequest := some saves_sync
        flagAfter := saves_sync
        result := Except.ok () }

/-! ## Theorems -/

/-- C3: in the source, `data = json.loads(message)` sits inside the
`while True` receive loop with no exception handler, so a frame whose JSON
decoding fails raises straight out of `connect`, terminating the loop — the
loop does not continue past the malformed frame. -/
theorem C3_malformed_frame_kills_loop :
    recvStep initState none = Except.error "json.JSONDecodeError" := rfl

/-- C2 counterexample: with `saves_sync = True` before the call,
`download_save_slot` issues its REST request while the flag is still `true`;
it never sets `savesSynced` to false before the request, contradicting the
claim. -/
theorem C2_counterexample :
    (download_save_slot true ⟨200, ""⟩).requestIssued = true ∧
    (download_save_slot true ⟨200, ""⟩).flagAtRequest = some true ∧
    (download_save_slot true ⟨200, ""⟩).flagAtRequest ≠ some false := by
  decide

/-- C2 (amended): `download_save_slot` issues its REST request with
`saves_sync` unchanged from its value before the call (it does not follow the
set-false-first pattern of the mutating operations), and on a non-200
response it sets `saves_sync` to true and fails with an error carrying the
response body. -/
theorem C2_amended_theorem (b : Bool) (r : HttpResponse) :
    (download_save_slot b r).requestIssued = true ∧
    (download_save_slot b r).flagAtRequest = some b ∧
    (r.status ≠ 200 →
      (download_save_slot b r).flagAfter = true ∧
      (download_save_slot b r).result =
        Except.error ("Error downloading save: " ++ r.text)) := by
  unfold download_save_slot
  by_cases h : r.status = 200 <;> simp [h]

/-- C2 witness: the amended statement at `saves_sync = false` and a 500
response. -/
theorem C2_witness :
    (download_save_slot false ⟨500, "boom"⟩).flagAfter = true ∧
    (download_save_slot false ⟨500, "boom"⟩).result =
      Except.error ("Error downloading save: " ++ "boom") :=
  (C2_amended_theorem false ⟨500, "boom"⟩).2.2 (by decide)

/-- C6: `toggle_mod` clears `mods_sync` before issuing the request; on every
non-success response (`resp.ok` false, i.e. status ≥ 400) it restores the
flag to true and raises an error carrying the response body; on a successful
response it returns with the flag left false. -/
theorem C6_theorem (mods_sync : Bool) (r : HttpResponse) :
    (toggle_mod mods_sync r).requestIssued = true ∧
    (toggle_mod mods_sync r).flagAtRequest = some false ∧
    (r.ok = false →
      (toggle_mod mods_sync r).flagAfter = true ∧
      (toggle_mod mods_sync r).result =
        Except.error ("Error in toggling mod: " ++ r.text)) ∧
    (r.ok = true →
      (toggle_mod mods_sync r).flagAfter = false ∧
      (toggle_mod mods_sync r).result = Except.ok ()) := by
  unfold toggle_mod
  cases h : r.ok <;> simp [h]

/-- C6 witness: a failed toggle (status 500) restores the flag and carries
the body, starting from `mods_sync = true`. -/
theorem C6_witness :
    (toggle_mod true ⟨500, "x"⟩).flagAfter = true ∧
    (toggle_mod true ⟨500, "x"⟩).result =
      Except.error ("Error in toggling mod: " ++ "x") :=
  (C6_theorem true ⟨500, "x"⟩).2.2.1 (by decide)

/-- C7: a mod whose declared size exceeds 256 MiB makes `upload_mod` fail
with the size-limit error without issuing any REST request, and a save whose
declared size exceeds 96 MiB makes `upload_save` fail with its size-limit
error without issuing any REST request. -/
theorem C7_theorem (msize ssize : Int) (b1 b2 : Bool) (r1 r2 : HttpResponse) :
    (msize > 268435456 →
      (upload_mod msize b1 r1).requestIssued = false ∧
      (upload_mod msize b1 r1).result =
        Except.error "Mod file must be under 256MB") ∧
    (ssize > 100663296 →
      (upload_save ssize b2 r2).requestIssued = false ∧
      (upload_save ssize b2 r2).result =
        Except.error "Save file must be under 96MB") := by
  constructor <;> intro h <;> simp [upload_mod, upload_save, h]

/-- C7 witness: a 300 MiB mod upload and a 114 MiB save upload both fail
locally, with no request issued. -/
theorem C7_witness :
    ((upload_mod 314572800 false ⟨200, ""⟩).requestIssued = false ∧
     (upload_mod 314572800 false ⟨200, ""⟩).result =
       Except.error "Mod file must be under 256MB") ∧
    ((upload_save 120000000 false ⟨200, ""⟩).requestIssued = false ∧
     (upload_save 120000000 false ⟨200, ""⟩).result =
       Except.error "Save file must be under 96MB") :=
  ⟨(C7_theorem 314572800 120000000 false false ⟨200, ""⟩ ⟨200, ""⟩).1 (by decide),
   (C7_theorem 314572800 120000000 false false ⟨200, ""⟩ ⟨200, ""⟩).2 (by decide)⟩

/-- C10: when the local size guard of `upload_mod` or `upload_save` fires,
the corresponding sync flag keeps the value it had before the call (the guard
raises before the flag is cleared), and no request is issued. -/
theorem C10_theorem (msize ssize : Int) (b1 b2 : Bool) (r1 r2 : HttpResponse) :
    (msize > 268435456 →
      (upload_mod msize b1 r1).flagAfter = b1 ∧
      (upload_mod msize b1 r1).flagAtRequest = none) ∧
    (ssize > 100663296 →
      (upload_save ssize b2 r2).flagAfter = b2 ∧
      (upload_save ssize b2 r2).flagAtRequest = none) := by
  constructor <;> intro h <;> simp [upload_mod, upload_save, h]

/-- C10 witness: oversized uploads starting with both flags true leave them
true. -/
theorem C10_witness :
    ((upload_mod 314572800 true ⟨200, ""⟩).flagAfter = true ∧
     (upload_mod 314572800 true ⟨200, ""⟩).flagAtRequest = none) ∧
    ((upload_save 120000000 true ⟨200, ""⟩).flagAfter = true ∧
     (upload_save 120000000 true ⟨200, ""⟩).flagAtRequest = none) :=
  ⟨(C10_theorem 314572800 120000000 true true ⟨200, ""⟩ ⟨200, ""⟩).1 (by decide),
   (C10_theorem 314572800 120000000 true true ⟨200, ""⟩ ⟨200, ""⟩).2 (by decide)⟩

/-- A frame whose `num` strictly exceeds the current `last_handled_message_num`
is accepted (also when that `num` is 0, which skips the check entirely). -/
lemma accepts_of_lt (s : ClientState) (f : Frame) (n : Int)
    (hfn : f.num = some n) (hlt : s.last_handled_message_num < n) :
    accepts s f = true := by
  have hnle : ¬ (n ≤ s.last_handled_message_num) := by omega
  by_cases h0 : n = 0
  · simp [accepts, seqCheck, hfn, h0]
  · simp [accepts, seqCheck, hfn, h0, hnle]

/-- The dispatcher either leaves `last_handled_message_num` alone or (on
`idle`) resets it to -1. -/
lemma dispatch_last_cases (s : ClientState) (f : Frame) :
    (dispatch s f).last_handled_message_num = s.last_handled_message_num ∨
    (dispatch s f).last_handled_message_num = -1 := by
  obtain ⟨fn, fe⟩ := f
  cases fe with
  | visit secret => simp [dispatch]
  | options name opts =>
      simp only [dispatch]
      split_ifs <;> simp
  | mods ms => simp [dispatch]
  | idle => simp [dispatch]
  | starting lid => simp [dispatch]
  | stopping lid => simp [dispatch]
  | running lid sock => simp [dispatch]
  | slot slotId => simp [dispatch]
  | log line => simp [dispatch]
  | info line =>
      simp only [dispatch]
      cases extractConnection line <;> simp
  | warn => simp [dispatch]
  | error => simp [dispatch]

/-- After handling a frame whose `num` exceeds the current sequence counter,
the counter is the old one (when `num = 0`), the frame's `num`, or -1 (after
`idle`). -/
lemma handleFrame_last_cases (s : ClientState) (f : Frame) (n : Int)
    (hfn : f.num = some n) (hlt : s.last_handled_message_num < n) :
    (handleFrame s f).last_handled_message_num = s.last_handled_message_num ∨
    (handleFrame s f).last_handled_message_num = n ∨
    (handleFrame s f).last_handled_message_num = -1 := by
  unfold handleFrame
  rw [hfn]
  by_cases h0 : n = 0
  · simp only [seqCheck, h0, if_pos rfl]
    rcases dispatch_last_cases s f with h | h
    · exact Or.inl h
    · exact Or.inr (Or.inr h)
  · have hnle : ¬ (n ≤ s.last_handled_message_num) := by omega
    simp only [seqCheck, h0, if_neg h0, if_neg hnle]
    rcases dispatch_last_cases { s with last_handled_message_num := n } f with h | h
    · exact Or.inr (Or.inl h)
    · exact Or.inr (Or.inr h)

/-- On frames whose `num`s are strictly increasing, nonnegative, and all
above the current sequence counter, every frame of the run is accepted. -/
lemma runAccepts_all (fs : List Frame) (nums : List Int) (s : ClientState)
    (hmap : fs.map Frame.num = nums.map some)
    (hpos : ∀ n ∈ nums, 0 ≤ n)
    (hinc : nums.Pairwise (· < ·))
    (hlb : ∀ n ∈ nums, s.last_handled_message_num < n) :
    runAccepts s fs = List.replicate fs.length true := by
  induction fs generalizing nums s with
  | nil => simp [runAccepts]
  | cons f fs ih =>
      cases nums with
      | nil => simp at hmap
      | cons n ns =>
          rw [List.map_cons, List.map_cons] at hmap
          injection hmap with h1 h2
          have hlt : s.last_handled_message_num < n := hlb n (by simp)
          rw [List.pairwise_cons] at hinc
          obtain ⟨hn_lt, hinc2⟩ := hinc
          have hacc := accepts_of_lt s f n h1 hlt
          have hlast := handleFrame_last_cases s f n h1 hlt
          simp only [runAccepts, hacc, List.length_cons, List.replicate_succ,
            List.cons.injEq, true_and]
          refine ih ns (handleFrame s f) h2
            (fun m hm => hpos m (by simp [hm])) hinc2 (fun m hm => ?_)
          have hnm := hn_lt m hm
          have h0m := hpos m (by simp [hm])
          rcases hlast with h | h | h <;> omega

/-- C1 counterexample: a frame carrying `num = 0` while
`lastHandledSeq = 0` satisfies `num ≤ lastHandledSeq`, so the claim demands
it be dropped with no state mutation; the code accepts and processes it
(Python truthiness: `if current_num:` skips the sequencer when `num == 0`),
here flipping `mods_sync`. -/
theorem C1_counterexample :
    accepts { initState with last_handled_message_num := 0 }
      ⟨some 0, Event.mods ["m"]⟩ = true ∧
    handleFrame { initState with last_handled_message_num := 0 }
        ⟨some 0, Event.mods ["m"]⟩ ≠
      { initState with last_handled_message_num := 0 } ∧
    (handleFrame { initState with last_handled_message_num := 0 }
        ⟨some 0, Event.mods ["m"]⟩).mods_sync = true := by
  decide

/-- C1 (amended): for every frame carrying a nonzero numeric `num`, the loop
drops it with no state mutation when `num ≤ lastHandledSeq` and otherwise
sets `lastHandledSeq = num` and processes it; a frame with no `num` — or with
`num = 0`, which Python truthiness treats the same way — is always
accepted. -/
theorem C1_amended_theorem (s : ClientState) (f : Frame) :
    (∀ n : Int, f.num = some n → n ≠ 0 → n ≤ s.last_handled_message_num →
      accepts s f = false ∧ handleFrame s f = s) ∧
    (∀ n : Int, f.num = some n → n ≠ 0 → s.last_handled_message_num < n →
      accepts s f = true ∧
      handleFrame s f = dispatch { s with last_handled_message_num := n } f) ∧
    (f.num = none → accepts s f = true) ∧
    (f.num = some 0 → accepts s f = true) := by
  refine ⟨?_, ?_, ?_, ?_⟩
  · intro n hn h0 hle
    constructor
    · simp [accepts, seqCheck, hn, h0, hle]
    · simp [handleFrame, seqCheck, hn, h0, hle]
  · intro n hn h0 hlt
    have hnle : ¬ (n ≤ s.last_handled_message_num) := by omega
    refine ⟨accepts_of_lt s f n hn hlt, ?_⟩
    simp [handleFrame, seqCheck, hn, h0, hnle]
  · intro hn
    simp [accepts, seqCheck, hn]
  · intro hn
    simp [accepts, seqCheck, hn]

/-- C1 witness: a duplicate frame (`num = -5 ≤ -1`) is dropped with the state
untouched. -/
theorem C1_witness :
    accepts initState ⟨some (-5), Event.warn⟩ = false ∧
    handleFrame initState ⟨some (-5), Event.warn⟩ = initState :=
  (C1_amended_theorem initState ⟨some (-5), Event.warn⟩).1 (-5) rfl
    (by decide) (by decide)

/-- C9: a frame carrying `num = 0` is treated exactly like a frame with no
`num`: the sequencer accepts it regardless of `lastHandledSeq`, and the
dispatcher runs on the unmodified state, so the sequencer check never updates
`lastHandledSeq` for it. -/
theorem C9_theorem (s : ClientState) (f : Frame) (h : f.num = some 0) :
    accepts s f = true ∧ handleFrame s f = dispatch s f := by
  simp [accepts, handleFrame, seqCheck, h]

/-- C9 witness: `num = 0` is accepted even with `lastHandledSeq = 5 ≥ 0`, and
dispatch runs on the state with the counter untouched. -/
theorem C9_witness :
    accepts { initState with last_handled_message_num := 5 }
      ⟨some 0, Event.mods ["m"]⟩ = true ∧
    handleFrame { initState with last_handled_message_num := 5 }
        ⟨some 0, Event.mods ["m"]⟩ =
      dispatch { initState with last_handled_message_num := 5 }
        ⟨some 0, Event.mods ["m"]⟩ :=
  C9_theorem { initState with last_handled_message_num := 5 }
    ⟨some 0, Event.mods ["m"]⟩ rfl

/-- C4 counterexample: `[5, 5]` is monotonically non-decreasing, yet the
second frame is dropped (`5 ≤ 5` after the first sets the counter to 5), so
not every event of the sequence is accepted. -/
theorem C4_counterexample :
    ((5 : Int) ≤ 5) ∧
    runAccepts initState [⟨some 5, Event.warn⟩, ⟨some 5, Event.warn⟩] =
      [true, false] := by
  decide

/-- C4 (amended): for every sequence of inbound frames each carrying a `num`,
with the `num`s strictly increasing and nonnegative, every frame of the
sequence is accepted (processed) exactly once by the sequencer, starting from
a fresh client. -/
theorem C4_amended_theorem (fs : List Frame) (nums : List Int)
    (hmap : fs.map Frame.num = nums.map some)
    (hpos : ∀ n ∈ nums, 0 ≤ n)
    (hinc : nums.Pairwise (· < ·)) :
    runAccepts initState fs = List.replicate fs.length true :=
  runAccepts_all fs nums initState hmap hpos hinc (fun n hn => by
    have h := hpos n hn
    have h2 : initState.last_handled_message_num = -1 := rfl
    omega)

/-- C4 witness: the strictly increasing run `[1, 2, 3]` (crossing an `idle`
reset) is accepted frame by frame. -/
theorem C4_witness :
    runAccepts initState
      [⟨some 1, Event.warn⟩, ⟨some 2, Event.idle⟩, ⟨some 3, Event.warn⟩] =
      List.replicate 3 true :=
  C4_amended_theorem
    [⟨some 1, Event.warn⟩, ⟨some 2, Event.idle⟩, ⟨some 3, Event.warn⟩]
    [1, 2, 3] rfl (by decide) (by decide)

/-- C5: after the receive loop processes an accepted `idle` frame (whatever
`num` that frame carried), `lastHandledSeq` is -1, and from that state every
frame carrying any `num ≥ 0` is accepted. -/
theorem C5_theorem (s : ClientState) (f : Frame) (hidle : f.event = Event.idle)
    (hacc : accepts s f = true) :
    (handleFrame s f).last_handled_message_num = -1 ∧
    ∀ (g : Frame) (n : Int), g.num = some n → 0 ≤ n →
      accepts (handleFrame s f) g = true := by
  have h1 : (handleFrame s f).last_handled_message_num = -1 := by
    unfold handleFrame
    cases hsq : seqCheck s f.num with
    | none => simp [accepts, hsq] at hacc
    | some s1 =>
        obtain ⟨fn, fe⟩ := f
        simp only at hidle
        subst hidle
        simp [dispatch]
  refine ⟨h1, fun g n hgn hn0 => ?_⟩
  exact accepts_of_lt (handleFrame s f) g n hgn (by omega)

/-- C5 witness: an `idle` frame with `num = 11` accepted at counter 10 resets
the counter to -1, after which `num = 3` is accepted again. -/
theorem C5_witness :
    (handleFrame { initState with last_handled_message_num := 10 }
      ⟨some 11, Event.idle⟩).last_handled_message_num = -1 ∧
    accepts
      (handleFrame { initState with last_handled_message_num := 10 }
        ⟨some 11, Event.idle⟩)
      ⟨some 3, Event.warn⟩ = true :=
  ⟨(C5_theorem { initState with last_handled_message_num := 10 }
      ⟨some 11, Event.idle⟩ rfl (by decide)).1,
   (C5_theorem { initState with last_handled_message_num := 10 }
      ⟨some 11, Event.idle⟩ rfl (by decide)).2
      ⟨some 3, Event.warn⟩ 3 rfl (by decide)⟩

/-- C8: the concrete scenario — a fresh client receiving `starting`
(launchId "abc", num 4) then `running` (launchId "abc", socket
"1.2.3.4:1234", num 5) — ends with running = true, launch_id = "abc",
server_address = "1.2.3.4:1234", status RUNNING; and in general every
accepted `running` frame sets running = true, launch_id to the frame's
launchId, server_address to its socket, and status to RUNNING. -/
theorem C8_theorem :
    ((processFrames initState
        [⟨some 4, Event.starting (some "abc")⟩,
         ⟨some 5, Event.running (some "abc") (some "1.2.3.4:1234")⟩]).running
          = true ∧
     (processFrames initState
        [⟨some 4, Event.starting (some "abc")⟩,
         ⟨some 5, Event.running (some "abc") (some "1.2.3.4:1234")⟩]).launch_id
          = some "abc" ∧
     (processFrames initState
        [⟨some 4, Event.starting (some "abc")⟩,
         ⟨some 5, Event.running (some "abc") (some "1.2.3.4:1234")⟩]).server_address
          = some "1.2.3.4:1234" ∧
     (processFrames initState
        [⟨some 4, Event.starting (some "abc")⟩,
         ⟨some 5, Event.running (some "abc") (some "1.2.3.4:1234")⟩]).server_status
          = ServerStatus.RUNNING) ∧
    ∀ (s : ClientState) (f : Frame) (lid sock : Option String),
      f.event = Event.running lid sock → accepts s f = true →
        (handleFrame s f).running = true ∧
        (handleFrame s f).launch_id = lid ∧
        (handleFrame s f).server_address = sock ∧
        (handleFrame s f).server_status = ServerStatus.RUNNING := by
  refine ⟨⟨rfl, rfl, rfl, rfl⟩, ?_⟩
  intro s f lid sock hev hacc
  unfold handleFrame
  cases hsq : seqCheck s f.num with
  | none => simp [accepts, hsq] at hacc
  | some s1 =>
      obtain ⟨fn, fe⟩ := f
      simp only at hev
      subst hev
      simp [dispatch]

/-- C8 witness: the general part applied to a fresh client and a concrete
accepted `running` frame. -/
theorem C8_witness :
    (handleFrame initState
      ⟨some 1, Event.running (some "x") (some "y")⟩).running = true ∧
    (handleFrame initState
      ⟨some 1, Event.running (some "x") (some "y")⟩).launch_id = some "x" ∧
    (handleFrame initState
      ⟨some 1, Event.running (some "x") (some "y")⟩).server_address = some "y" ∧
    (handleFrame initState
      ⟨some 1, Event.running (some "x") (some "y")⟩).server_status
        = ServerStatus.RUNNING :=
  C8_theorem.2 initState ⟨some 1, Event.running (some "x") (some "y")⟩
    (some "x") (some "y") rfl (by decide)

end FZ
